import Mathlib

/-!
Shallow embedding of `src/server/utils/email.ts`: the transport-configuration
resolver (`createTransporter`), the mail dispatcher (`sendEmail`) and the
health probe (`verifyEmailConfig`).

JavaScript conventions are made explicit:
* `process.env` is an explicit `Env` record of optional strings;
* string truthiness (`undefined` and `""` are falsy) is `truthyStr`, and
  the `||` operator on strings is `jsOr`;
* a JavaScript number produced by `parseInt` is a `JsNum` (an integer or NaN);
* a thrown JavaScript value is a `JsThrown` (an `Error` with a message, or
  any other value);
* the nodemailer transport side effects (`sendMail`, `verify`) are passed in
  as explicit functions returning `Except JsThrown Unit`, so the pure
  resolution and wrapping logic can be proved about.
-/

namespace EmailTs

/-- Truthiness of a `string | undefined` value: `undefined` and `""` are falsy. -/
def truthyStr : Option String → Bool
  | none => false
  | some s => s != ""

/-- JavaScript `a || b` where `a : string | undefined` and `b` is a string. -/
def jsOr (a : Option String) (b : String) : String :=
  match a with
  | none => b
  | some s => if s = "" then b else s

/-- JavaScript `a || b` where both sides are `string | undefined`. -/
def jsOrOpt (a : Option String) (b : Option String) : Option String :=
  match a with
  | none => b
  | some s => if s = "" then b else some s

/-- A JavaScript number as produced by `parseInt(_, 10)`: an integer or NaN. -/
inductive JsNum where
  | nan : JsNum
  | int (n : Int) : JsNum
  deriving DecidableEq, Repr

/-- Accumulate the leading decimal digits of a character list. -/
def digitsAcc : List Char → Nat → Nat
  | [], acc => acc
  | c :: cs, acc => if c.isDigit then digitsAcc cs (acc * 10 + (c.toNat - 48)) else acc

/-- `parseInt(s, 10)`: skip leading whitespace, optional sign, then read
leading decimal digits; NaN when no digit follows. -/
def jsParseInt (s : String) : JsNum :=
  let cs := s.data.dropWhile Char.isWhitespace
  match cs with
  | '-' :: rest =>
    match rest with
    | c :: _ => if c.isDigit then .int (-(digitsAcc rest 0 : Int)) else .nan
    | [] => .nan
  | '+' :: rest =>
    match rest with
    | c :: _ => if c.isDigit then .int (digitsAcc rest 0 : Int) else .nan
    | [] => .nan
  | c :: _ => if c.isDigit then .int (digitsAcc cs 0 : Int) else .nan
  | [] => .nan

/-- A thrown JavaScript value: an `Error` carrying a message, or anything else. -/
inductive JsThrown where
  | jsError (message : String) : JsThrown
  | other : JsThrown
  deriving DecidableEq, Repr

/-- `error instanceof Error ? error.message : 'Unknown error'`. -/
def jsMessageOf : JsThrown → String
  | .jsError m => m
  | .other => "Unknown error"

/-- `pat` occurs as a contiguous substring of `s`. -/
def strContains (s pat : String) : Prop :=
  pat.data <:+: s.data

instance (s pat : String) : Decidable (strContains s pat) :=
  List.decidableInfix pat.data s.data

instance {ε α : Type} [DecidableEq ε] [DecidableEq α] : DecidableEq (Except ε α) := fun x y =>
  match x, y with
  | .error e, .error f =>
    if h : e = f then .isTrue (by rw [h]) else .isFalse (by intro hh; injection hh; contradiction)
  | .error _, .ok _ => .isFalse (fun hh => Except.noConfusion hh)
  | .ok _, .error _ => .isFalse (fun hh => Except.noConfusion hh)
  | .ok a, .ok b =>
    if h : a = b then .isTrue (by rw [h]) else .isFalse (by intro hh; injection hh; contradiction)

/-- The process environment variables read by `email.ts`. -/
structure Env where
  EMAIL_SERVICE : Option String := none
  EMAIL_HOST : Option String := none
  EMAIL_PORT : Option String := none
  EMAIL_USER : Option String := none
  EMAIL_PASSWORD : Option String := none
  EMAIL_FROM : Option String := none
  EMAIL_FROM_NAME : Option String := none
  deriving DecidableEq, Repr

/-- The `IntegrationEmailConfig` interface (per-tenant SMTP credentials). -/
structure IntegrationEmailConfig where
  smtp_host : String
  smtp_port : Int
  smtp_user : String
  smtp_password : String
  smtp_secure : Option Bool := none
  from_email : String
  from_name : Option String := none
  deriving DecidableEq, Repr

/-- The `EmailConfig` interface: the resolved transporter configuration
handed to `nodemailer.createTransport`.  Optional fields model the optional
interface members; `auth` is the `{user, pass}` pair.  The `tls` member of
the interface is never populated by the code and is kept as an always-`none`
field for fidelity. -/
structure EmailConfig where
  host : Option String := none
  port : Option JsNum := none
  secure : Option Bool := none
  requireTLS : Option Bool := none
  auth : Option (String × String) := none
  service : Option String := none
  tlsRejectUnauthorized : Option Bool := none
  logger : Option Bool := none
  debug : Option Bool := none
  connectionTimeout : Option Nat := none
  greetingTimeout : Option Nat := none
  socketTimeout : Option Nat := none
  deriving DecidableEq, Repr

/-- `createTransporter(integrationConfig?)`: resolve a transporter
configuration from the integration config when given, otherwise from the
environment.  Throwing is modelled as `Except.error` carrying the thrown
`Error` message; success carries the config that the code passes to
`nodemailer.createTransport`. -/
def createTransporter (env : Env) :
    Option IntegrationEmailConfig → Except String EmailConfig
  | some cfg =>
    if cfg.smtp_host = "" ∨ cfg.smtp_user = "" ∨ cfg.smtp_password = "" then
      .error "Invalid integration config: missing required SMTP fields"
    else if cfg.smtp_host.data.contains '@' then
      .error ("Invalid SMTP Host: \"" ++ cfg.smtp_host ++
        "\" is an email address. Use server address like \"smtp.gmail.com\"")
    else
      let port := cfg.smtp_port
      let sec : Bool × Option Bool :=
        if port = 465 then (true, none)
        else if port = 587 then (false, some true)
        else
          let s := cfg.smtp_secure.getD false
          (s, if s then none else some true)
      .ok { host := some cfg.smtp_host
            port := some (.int port)
            secure := some sec.1
            requireTLS := sec.2
            auth := some (cfg.smtp_user, cfg.smtp_password)
            connectionTimeout := some 10000
            greetingTimeout := some 5000
            socketTimeout := some 10000
            logger := some true
            debug := some true }
  | none =>
    let emailService := env.EMAIL_SERVICE
    let emailHost := env.EMAIL_HOST
    let emailPort := jsParseInt (jsOr env.EMAIL_PORT "587")
    let emailUser := env.EMAIL_USER
    let emailPassword := env.EMAIL_PASSWORD
    if truthyStr emailUser = false ∨ truthyStr emailPassword = false then
      .error "Email configuration is missing. Please set EMAIL_USER and EMAIL_PASSWORD in .env"
    else
      let base : EmailConfig :=
        { auth := some (emailUser.getD "", emailPassword.getD "")
          connectionTimeout := some 10000
          greetingTimeout := some 5000
          socketTimeout := some 10000
          logger := some true
          debug := some true }
      if truthyStr emailService then
        .ok { base with service := emailService }
      else if truthyStr emailHost then
        .ok { base with
              host := emailHost
              port := some emailPort
              secure := some (decide (emailPort = .int 465)) }
      else
        .ok { base with service := some "gmail" }

/-- A `string | string[]` recipients value. -/
inductive Recipients where
  | one (addr : String) : Recipients
  | many (addrs : List String) : Recipients
  deriving DecidableEq, Repr

/-- `Array.isArray(r) ? r.join(', ') : r`. -/
def Recipients.normalize : Recipients → String
  | .one a => a
  | .many l => String.intercalate ", " l

/-- Truthiness of a `string | string[]` value: `""` is falsy, arrays
(empty or not) are truthy. -/
def Recipients.truthy : Recipients → Bool
  | .one a => a != ""
  | .many _ => true

/-- One attachment, passed through to the transport unmodified.
`content` collapses `string | Buffer` to a string payload. -/
structure Attachment where
  filename : String
  path : Option String := none
  content : Option String := none
  contentType : Option String := none
  deriving DecidableEq, Repr

/-- The `SendEmailOptions` interface. -/
structure SendEmailOptions where
  «from» : Option String := none
  fromName : Option String := none
  integrationConfig : Option IntegrationEmailConfig := none
  «to» : Recipients
  subject : String
  text : Option String := none
  html : Option String := none
  cc : Option Recipients := none
  bcc : Option Recipients := none
  attachments : Option (List Attachment) := none
  deriving DecidableEq, Repr

/-- The `mailOptions` object handed to `transporter.sendMail`. -/
structure MailOptions where
  «from» : String
  «to» : String
  subject : String
  text : Option String := none
  html : Option String := none
  cc : Option String := none
  bcc : Option String := none
  attachments : Option (List Attachment) := none
  deriving DecidableEq, Repr

/-- The sender `(fromEmail, fromName)` resolution inside `sendEmail`:
per-request values, then integration config values, then (on the
environment path) environment defaults, then hardcoded defaults. -/
def resolveSender (env : Env) (options : SendEmailOptions) : String × String :=
  match options.integrationConfig with
  | some cfg =>
    (jsOr options.«from» cfg.from_email,
     jsOr options.fromName (jsOr cfg.from_name "aNquest+"))
  | none =>
    (jsOr options.«from» (jsOr env.EMAIL_FROM (jsOr env.EMAIL_USER "noreply@anquest.com")),
     jsOr options.fromName (jsOr env.EMAIL_FROM_NAME "aNquest+"))

/-- Build the `mailOptions` object of `sendEmail`. -/
def buildMailOptions (env : Env) (options : SendEmailOptions) : MailOptions :=
  let sender := resolveSender env options
  { «from» := "\"" ++ sender.2 ++ "\" <" ++ sender.1 ++ ">"
    «to» := options.«to».normalize
    subject := options.subject
    text := options.text
    html := jsOrOpt options.html options.text
    cc := options.cc.bind fun r => if r.truthy then some r.normalize else none
    bcc := options.bcc.bind fun r => if r.truthy then some r.normalize else none
    attachments := options.attachments }

/-- `sendEmail(options)`.  The nodemailer `sendMail` call is an explicit
function from the resolved transporter config and mail options to a result;
any `Except.error` on either the resolver or the dispatch is caught and
re-thrown as `Failed to send email: <message>`. -/
def sendEmail (env : Env) (options : SendEmailOptions)
    (sendMail : EmailConfig → MailOptions → Except JsThrown Unit) : Except String Unit :=
  match createTransporter env options.integrationConfig with
  | .error m => .error ("Failed to send email: " ++ m)
  | .ok transporter =>
    match sendMail transporter (buildMailOptions env options) with
    | .ok _ => .ok ()
    | .error e => .error ("Failed to send email: " ++ jsMessageOf e)

/-- `verifyEmailConfig()`: resolve the environment-based transporter and run
the handshake-only `verify`; any failure anywhere becomes `false`. -/
def verifyEmailConfig (env : Env)
    (verify : EmailConfig → Except JsThrown Unit) : Bool :=
  match createTransporter env none with
  | .error _ => false
  | .ok transporter =>
    match verify transporter with
    | .ok _ => true
    | .error _ => false


/-- Helper: a string is an infix of any enclosing concatenation. -/
theorem strContains_append (pre mid suf : String) :
    strContains (pre ++ mid ++ suf) mid := by
  show mid.data <:+: (pre ++ mid ++ suf).data
  rw [String.data_append, String.data_append]
  exact List.infix_append _ _ _

/-- C1: for every integration config passing validation, the resolved
security fields are derived from the port: 465 gives implicit TLS with no
`requireTLS` override; 587 gives `secure = false` with `requireTLS = true`;
any other port takes `secure` from `smtp_secure` (default `false`) and sets
`requireTLS = true` exactly when not secure. -/
theorem claim1_port_driven_security (env : Env) (cfg : IntegrationEmailConfig)
    (hh : cfg.smtp_host ≠ "") (hu : cfg.smtp_user ≠ "") (hp : cfg.smtp_password ≠ "")
    (hat : cfg.smtp_host.data.contains '@' = false) :
    ∃ c, createTransporter env (some cfg) = .ok c ∧
      (cfg.smtp_port = 465 → c.secure = some true ∧ c.requireTLS = none) ∧
      (cfg.smtp_port = 587 → c.secure = some false ∧ c.requireTLS = some true) ∧
      (cfg.smtp_port ≠ 465 → cfg.smtp_port ≠ 587 →
        c.secure = some (cfg.smtp_secure.getD false) ∧
        c.requireTLS = if cfg.smtp_secure.getD false then none else some true) := by
  have h1 : ¬(cfg.smtp_host = "" ∨ cfg.smtp_user = "" ∨ cfg.smtp_password = "") := by
    simp [hh, hu, hp]
  simp only [createTransporter]
  rw [if_neg h1, if_neg (by simpa using hat)]
  refine ⟨_, rfl, ?_, ?_, ?_⟩
  · intro h465; simp [h465]
  · intro h587
    have : cfg.smtp_port ≠ 465 := by rw [h587]; decide
    simp [h587, this]
  · intro h465 h587
    simp [h465, h587]

/-- C1 witness at a concrete validated config with port 465. -/
theorem claim1_witness :
    ∃ c, createTransporter {}
        (some { smtp_host := "smtp.example.com", smtp_port := 465, smtp_user := "user",
                smtp_password := "pw", from_email := "noreply@example.com" }) = .ok c ∧
      ((465 : Int) = 465 → c.secure = some true ∧ c.requireTLS = none) ∧
      ((465 : Int) = 587 → c.secure = some false ∧ c.requireTLS = some true) ∧
      ((465 : Int) ≠ 465 → (465 : Int) ≠ 587 →
        c.secure = some ((none : Option Bool).getD false) ∧
        c.requireTLS = if (none : Option Bool).getD false then none else some true) :=
  claim1_port_driven_security {} _ (by decide) (by decide) (by decide) (by decide)

/-- C2 counterexample: with `smtp_host = "smtp@example.com"` but an empty
`smtp_user`, resolution fails with the missing-fields error, which does not
name the offending host value. -/
theorem claim2_counterexample :
    createTransporter {}
        (some { smtp_host := "smtp@example.com", smtp_port := 587, smtp_user := "",
                smtp_password := "secret", from_email := "noreply@example.com" }) =
      .error "Invalid integration config: missing required SMTP fields" ∧
    ¬ strContains "Invalid integration config: missing required SMTP fields" "smtp@example.com" := by
  exact ⟨by decide, by decide⟩

/-- C2 amended: for every integration config whose `smtp_host` contains `'@'`,
resolution fails with an error (no transport profile is produced); when the
required fields `smtp_user` and `smtp_password` are non-empty, that error
names the offending host value and suggests the correct shape
(`smtp.gmail.com`). -/
theorem claim2_amended_host_at (env : Env) (cfg : IntegrationEmailConfig)
    (hat : cfg.smtp_host.data.contains '@' = true) :
    (∃ e, createTransporter env (some cfg) = .error e) ∧
    (cfg.smtp_user ≠ "" → cfg.smtp_password ≠ "" →
      createTransporter env (some cfg) =
        .error ("Invalid SMTP Host: \"" ++ cfg.smtp_host ++
          "\" is an email address. Use server address like \"smtp.gmail.com\"") ∧
      strContains ("Invalid SMTP Host: \"" ++ cfg.smtp_host ++
          "\" is an email address. Use server address like \"smtp.gmail.com\"") cfg.smtp_host ∧
      strContains ("Invalid SMTP Host: \"" ++ cfg.smtp_host ++
          "\" is an email address. Use server address like \"smtp.gmail.com\"") "smtp.gmail.com") := by
  have hh : cfg.smtp_host ≠ "" := by
    intro he
    rw [he] at hat
    exact absurd hat (by decide)
  constructor
  · by_cases h1 : cfg.smtp_host = "" ∨ cfg.smtp_user = "" ∨ cfg.smtp_password = ""
    · exact ⟨_, by simp only [createTransporter]; rw [if_pos h1]⟩
    · exact ⟨_, by simp only [createTransporter]; rw [if_neg h1, if_pos (by simpa using hat)]⟩
  · intro hu hp
    have h1 : ¬(cfg.smtp_host = "" ∨ cfg.smtp_user = "" ∨ cfg.smtp_password = "") := by
      simp [hh, hu, hp]
    refine ⟨by simp only [createTransporter]; rw [if_neg h1, if_pos (by simpa using hat)], ?_, ?_⟩
    · exact strContains_append _ _ _
    · have : ("Invalid SMTP Host: \"" ++ cfg.smtp_host ++
          "\" is an email address. Use server address like \"smtp.gmail.com\"") =
        ("Invalid SMTP Host: \"" ++ cfg.smtp_host ++ "\" is an email address. Use server address like \"")
          ++ "smtp.gmail.com" ++ "\"" := by
        simp [String.append_assoc]
      rw [this]
      exact strContains_append _ _ _

/-- C2 amended witness at a concrete config whose host contains `'@'` and
whose credentials are non-empty. -/
theorem claim2_amended_witness :
    (∃ e, createTransporter {}
        (some { smtp_host := "user@gmail.com", smtp_port := 587, smtp_user := "user",
                smtp_password := "pw", from_email := "noreply@example.com" }) = .error e) ∧
    ((("user") : String) ≠ "" → (("pw") : String) ≠ "" →
      createTransporter {}
        (some { smtp_host := "user@gmail.com", smtp_port := 587, smtp_user := "user",
                smtp_password := "pw", from_email := "noreply@example.com" }) =
        .error ("Invalid SMTP Host: \"" ++ "user@gmail.com" ++
          "\" is an email address. Use server address like \"smtp.gmail.com\"") ∧
      strContains ("Invalid SMTP Host: \"" ++ "user@gmail.com" ++
          "\" is an email address. Use server address like \"smtp.gmail.com\"") "user@gmail.com" ∧
      strContains ("Invalid SMTP Host: \"" ++ "user@gmail.com" ++
          "\" is an email address. Use server address like \"smtp.gmail.com\"") "smtp.gmail.com") :=
  claim2_amended_host_at {} _ (by decide)

/-- C3: any integration config with an empty `smtp_host`, `smtp_user` or
`smtp_password` makes resolution fail with the missing-required-SMTP-fields
configuration error, producing no transport profile. -/
theorem claim3_missing_required_fields (env : Env) (cfg : IntegrationEmailConfig)
    (h : cfg.smtp_host = "" ∨ cfg.smtp_user = "" ∨ cfg.smtp_password = "") :
    createTransporter env (some cfg) =
      .error "Invalid integration config: missing required SMTP fields" ∧
    strContains "Invalid integration config: missing required SMTP fields"
      "missing required SMTP fields" := by
  exact ⟨by simp only [createTransporter]; rw [if_pos h], by decide⟩

/-- C3 witness at a concrete config with an empty password. -/
theorem claim3_witness :
    createTransporter {}
        (some { smtp_host := "smtp.example.com", smtp_port := 25, smtp_user := "user",
                smtp_password := "", from_email := "noreply@example.com" }) =
      .error "Invalid integration config: missing required SMTP fields" ∧
    strContains "Invalid integration config: missing required SMTP fields"
      "missing required SMTP fields" :=
  claim3_missing_required_fields {} _ (by decide)

/-- C7: every successfully resolved transporter configuration, from either
source, carries the fixed timeouts 10000ms / 5000ms / 10000ms. -/
theorem claim7_fixed_timeouts (env : Env) (icfg : Option IntegrationEmailConfig)
    (c : EmailConfig) (h : createTransporter env icfg = .ok c) :
    c.connectionTimeout = some 10000 ∧ c.greetingTimeout = some 5000 ∧
    c.socketTimeout = some 10000 := by
  cases icfg with
  | some cfg =>
    simp only [createTransporter] at h
    split at h
    · cases h
    · split at h
      · cases h
      · injection h with h2
        subst h2
        exact ⟨rfl, rfl, rfl⟩
  | none =>
    simp only [createTransporter] at h
    split at h
    · cases h
    · split at h
      · injection h with h2; subst h2; exact ⟨rfl, rfl, rfl⟩
      · split at h
        · injection h with h2; subst h2; exact ⟨rfl, rfl, rfl⟩
        · injection h with h2; subst h2; exact ⟨rfl, rfl, rfl⟩

/-- C7 witness at a concrete environment-based resolution. -/
theorem claim7_witness :
    ∃ c, createTransporter { EMAIL_USER := some "u", EMAIL_PASSWORD := some "p" } none = .ok c ∧
      (c.connectionTimeout = some 10000 ∧ c.greetingTimeout = some 5000 ∧
       c.socketTimeout = some 10000) :=
  ⟨_, rfl, claim7_fixed_timeouts { EMAIL_USER := some "u", EMAIL_PASSWORD := some "p" } none _ rfl⟩


/-- Helper: JavaScript `a || b` keeps a truthy left operand. -/
theorem jsOr_of_truthy (a : Option String) (b : String) (h : truthyStr a = true) :
    jsOr a b = a.getD "" := by
  cases a with
  | none => simp [truthyStr] at h
  | some s =>
    simp [truthyStr] at h
    simp [jsOr, h]

/-- Helper: JavaScript `a || b` falls back on a falsy left operand. -/
theorem jsOr_of_falsy (a : Option String) (b : String) (h : truthyStr a = false) :
    jsOr a b = b := by
  cases a with
  | none => rfl
  | some s =>
    simp [truthyStr] at h
    simp [jsOr, h]

/-- C4: on the environment path, resolution fails (mentioning EMAIL_USER and
EMAIL_PASSWORD) when either credential is falsy; otherwise a truthy
EMAIL_SERVICE takes precedence over EMAIL_HOST, the explicit-host mode uses
the parsed port (587 when EMAIL_PORT is unset) with `secure` true exactly
when that port is 465, and with neither set the service defaults to
`"gmail"`. -/
theorem claim4_env_resolution (env : Env) :
    ((truthyStr env.EMAIL_USER = false ∨ truthyStr env.EMAIL_PASSWORD = false) →
      ∃ e, createTransporter env none = .error e ∧
        strContains e "EMAIL_USER" ∧ strContains e "EMAIL_PASSWORD") ∧
    (truthyStr env.EMAIL_USER = true → truthyStr env.EMAIL_PASSWORD = true →
      (truthyStr env.EMAIL_SERVICE = true →
        ∃ c, createTransporter env none = .ok c ∧
          c.service = env.EMAIL_SERVICE ∧ c.host = none) ∧
      (truthyStr env.EMAIL_SERVICE = false → truthyStr env.EMAIL_HOST = true →
        ∃ c, createTransporter env none = .ok c ∧
          c.host = env.EMAIL_HOST ∧
          c.port = some (jsParseInt (jsOr env.EMAIL_PORT "587")) ∧
          (∃ b, c.secure = some b ∧
            (b = true ↔ jsParseInt (jsOr env.EMAIL_PORT "587") = .int 465)) ∧
          (env.EMAIL_PORT = none → c.port = some (.int 587))) ∧
      (truthyStr env.EMAIL_SERVICE = false → truthyStr env.EMAIL_HOST = false →
        ∃ c, createTransporter env none = .ok c ∧ c.service = some "gmail")) := by
  constructor
  · intro hcred
    have he : createTransporter env none =
        .error "Email configuration is missing. Please set EMAIL_USER and EMAIL_PASSWORD in .env" := by
      simp only [createTransporter]
      rw [if_pos hcred]
    exact ⟨_, he, by decide, by decide⟩
  · intro hu hp
    have hcred : ¬(truthyStr env.EMAIL_USER = false ∨ truthyStr env.EMAIL_PASSWORD = false) := by
      simp [hu, hp]
    refine ⟨?_, ?_, ?_⟩
    · intro hs
      simp only [createTransporter]
      rw [if_neg hcred, if_pos hs]
      exact ⟨_, rfl, rfl, rfl⟩
    · intro hs hh
      simp only [createTransporter]
      rw [if_neg hcred, if_neg (by simp [hs]), if_pos hh]
      refine ⟨_, rfl, rfl, rfl, ⟨_, rfl, decide_eq_true_iff⟩, ?_⟩
      intro hnone
      rw [hnone]
      rfl
    · intro hs hh
      simp only [createTransporter]
      rw [if_neg hcred, if_neg (by simp [hs]), if_neg (by simp [hh])]
      exact ⟨_, rfl, rfl⟩

/-- C4 witness: an environment with a host but no credentials fails with an
error naming both credential variables. -/
theorem claim4_witness :
    ∃ e, createTransporter { EMAIL_HOST := some "smtp.x.com" } none = .error e ∧
      strContains e "EMAIL_USER" ∧ strContains e "EMAIL_PASSWORD" :=
  (claim4_env_resolution { EMAIL_HOST := some "smtp.x.com" }).1 (Or.inl (by decide))

/-- C5: the dispatcher passes a single `to` address through unchanged, joins
address lists with `", "` preserving order, and omits `cc`/`bcc` entirely
when they are not provided. -/
theorem claim5_recipient_normalization (env : Env) (opts : SendEmailOptions) :
    ((∀ a, opts.«to» = .one a → (buildMailOptions env opts).«to» = a) ∧
     (∀ l, opts.«to» = .many l →
        (buildMailOptions env opts).«to» = String.intercalate ", " l)) ∧
    ((∀ a, a ≠ "" → opts.cc = some (.one a) → (buildMailOptions env opts).cc = some a) ∧
     (∀ l, opts.cc = some (.many l) →
        (buildMailOptions env opts).cc = some (String.intercalate ", " l)) ∧
     (opts.cc = none → (buildMailOptions env opts).cc = none)) ∧
    ((∀ a, a ≠ "" → opts.bcc = some (.one a) → (buildMailOptions env opts).bcc = some a) ∧
     (∀ l, opts.bcc = some (.many l) →
        (buildMailOptions env opts).bcc = some (String.intercalate ", " l)) ∧
     (opts.bcc = none → (buildMailOptions env opts).bcc = none)) := by
  refine ⟨⟨?_, ?_⟩, ⟨?_, ?_, ?_⟩, ⟨?_, ?_, ?_⟩⟩
  · intro a h; simp [buildMailOptions, h, Recipients.normalize]
  · intro l h; simp [buildMailOptions, h, Recipients.normalize]
  · intro a ha h; simp [buildMailOptions, h, Recipients.normalize, Recipients.truthy, ha]
  · intro l h; simp [buildMailOptions, h, Recipients.normalize, Recipients.truthy]
  · intro h; simp [buildMailOptions, h]
  · intro a ha h; simp [buildMailOptions, h, Recipients.normalize, Recipients.truthy, ha]
  · intro l h; simp [buildMailOptions, h, Recipients.normalize, Recipients.truthy]
  · intro h; simp [buildMailOptions, h]

/-- C5 witness: the two-address example joins to `"a@x.com, b@x.com"`, and
absent `cc`/`bcc` stay absent. -/
theorem claim5_witness :
    (buildMailOptions {}
        { «to» := .many ["a@x.com", "b@x.com"], subject := "hello" }).«to» =
      String.intercalate ", " ["a@x.com", "b@x.com"] ∧
    String.intercalate ", " ["a@x.com", "b@x.com"] = "a@x.com, b@x.com" ∧
    (buildMailOptions {}
        { «to» := .many ["a@x.com", "b@x.com"], subject := "hello" }).cc = none :=
  ⟨((claim5_recipient_normalization {}
       { «to» := .many ["a@x.com", "b@x.com"], subject := "hello" }).1.2)
      ["a@x.com", "b@x.com"] rfl,
   by decide,
   ((claim5_recipient_normalization {}
       { «to» := .many ["a@x.com", "b@x.com"], subject := "hello" }).2.1.2.2) rfl⟩

/-- C6: the sender header is `"<name>" <email>` and its parts follow the
precedence: per-request `from`/`fromName`, then the integration config
`from_email`/`from_name`, then (environment path) `EMAIL_FROM` /
`EMAIL_USER` / `EMAIL_FROM_NAME`, then the hardcoded defaults. -/
theorem claim6_sender_precedence (env : Env) (opts : SendEmailOptions) :
    ((buildMailOptions env opts).«from» =
      "\"" ++ (resolveSender env opts).2 ++ "\" <" ++ (resolveSender env opts).1 ++ ">") ∧
    (∀ e, e ≠ "" → opts.«from» = some e → (resolveSender env opts).1 = e) ∧
    (∀ n, n ≠ "" → opts.fromName = some n → (resolveSender env opts).2 = n) ∧
    (∀ cfg, opts.integrationConfig = some cfg →
      (truthyStr opts.«from» = false → (resolveSender env opts).1 = cfg.from_email) ∧
      (truthyStr opts.fromName = false → truthyStr cfg.from_name = true →
        (resolveSender env opts).2 = cfg.from_name.getD "") ∧
      (truthyStr opts.fromName = false → truthyStr cfg.from_name = false →
        (resolveSender env opts).2 = "aNquest+")) ∧
    (opts.integrationConfig = none →
      (truthyStr opts.«from» = false →
        (truthyStr env.EMAIL_FROM = true →
          (resolveSender env opts).1 = env.EMAIL_FROM.getD "") ∧
        (truthyStr env.EMAIL_FROM = false → truthyStr env.EMAIL_USER = true →
          (resolveSender env opts).1 = env.EMAIL_USER.getD "") ∧
        (truthyStr env.EMAIL_FROM = false → truthyStr env.EMAIL_USER = false →
          (resolveSender env opts).1 = "noreply@anquest.com")) ∧
      (truthyStr opts.fromName = false →
        (truthyStr env.EMAIL_FROM_NAME = true →
          (resolveSender env opts).2 = env.EMAIL_FROM_NAME.getD "") ∧
        (truthyStr env.EMAIL_FROM_NAME = false →
          (resolveSender env opts).2 = "aNquest+"))) := by
  refine ⟨rfl, ?_, ?_, ?_, ?_⟩
  · intro e he hf
    cases hic : opts.integrationConfig <;>
      simp [resolveSender, hic, hf, jsOr, he]
  · intro n hn hf
    cases hic : opts.integrationConfig <;>
      simp [resolveSender, hic, hf, jsOr, hn]
  · intro cfg hic
    refine ⟨?_, ?_, ?_⟩
    · intro hf
      simp [resolveSender, hic, jsOr_of_falsy _ _ hf]
    · intro hf hn
      simp [resolveSender, hic, jsOr_of_falsy _ _ hf, jsOr_of_truthy _ _ hn]
    · intro hf hn
      simp [resolveSender, hic, jsOr_of_falsy _ _ hf, jsOr_of_falsy _ _ hn]
  · intro hic
    refine ⟨?_, ?_⟩
    · intro hf
      refine ⟨?_, ?_, ?_⟩
      · intro h1
        simp [resolveSender, hic, jsOr_of_falsy _ _ hf, jsOr_of_truthy _ _ h1]
      · intro h1 h2
        simp [resolveSender, hic, jsOr_of_falsy _ _ hf, jsOr_of_falsy _ _ h1,
          jsOr_of_truthy _ _ h2]
      · intro h1 h2
        simp [resolveSender, hic, jsOr_of_falsy _ _ hf, jsOr_of_falsy _ _ h1,
          jsOr_of_falsy _ _ h2]
    · intro hf
      refine ⟨?_, ?_⟩
      · intro h1
        simp [resolveSender, hic, jsOr_of_falsy _ _ hf, jsOr_of_truthy _ _ h1]
      · intro h1
        simp [resolveSender, hic, jsOr_of_falsy _ _ hf, jsOr_of_falsy _ _ h1]

/-- C6 witness: an explicit `fromName` overrides the integration-config
default at a concrete request. -/
theorem claim6_witness :
    (resolveSender {}
        { «from» := some "boss@x.com", fromName := some "Boss",
          integrationConfig := some
            { smtp_host := "smtp.x.com", smtp_port := 587, smtp_user := "u",
              smtp_password := "p", from_email := "noreply@x.com",
              from_name := some "Robot" },
          «to» := .one "r@x.com", subject := "hi" }).2 = "Boss" :=
  (claim6_sender_precedence {}
      { «from» := some "boss@x.com", fromName := some "Boss",
        integrationConfig := some
          { smtp_host := "smtp.x.com", smtp_port := 587, smtp_user := "u",
            smtp_password := "p", from_email := "noreply@x.com",
            from_name := some "Robot" },
        «to» := .one "r@x.com", subject := "hi" }).2.2.1 "Boss" (by decide) rfl


/-- C8: any failure inside `sendEmail` — a resolver error or a dispatch
error — is re-thrown as a single uniform error carrying the underlying
message, with `Unknown error` standing in when the thrown value is not an
`Error`. -/
theorem claim8_uniform_error_wrapping (env : Env) (opts : SendEmailOptions)
    (sendMail : EmailConfig → MailOptions → Except JsThrown Unit) :
    (∀ m, createTransporter env opts.integrationConfig = .error m →
      sendEmail env opts sendMail = .error ("Failed to send email: " ++ m)) ∧
    (∀ c t, createTransporter env opts.integrationConfig = .ok c →
      sendMail c (buildMailOptions env opts) = .error t →
      sendEmail env opts sendMail = .error ("Failed to send email: " ++ jsMessageOf t)) ∧
    (∀ m, jsMessageOf (.jsError m) = m) ∧
    jsMessageOf .other = "Unknown error" := by
  refine ⟨?_, ?_, fun m => rfl, rfl⟩
  · intro m hm
    simp [sendEmail, hm]
  · intro c t hc ht
    simp [sendEmail, hc, ht]

/-- C8 witness: a dispatch throwing a non-`Error` value surfaces as
`Failed to send email: Unknown error` at a concrete request. -/
theorem claim8_witness :
    sendEmail { EMAIL_USER := some "u", EMAIL_PASSWORD := some "p" }
        { «to» := .one "r@x.com", subject := "s" }
        (fun _ _ => .error .other) =
      .error ("Failed to send email: " ++ jsMessageOf .other) ∧
    "Failed to send email: " ++ jsMessageOf JsThrown.other =
      "Failed to send email: Unknown error" :=
  ⟨(claim8_uniform_error_wrapping { EMAIL_USER := some "u", EMAIL_PASSWORD := some "p" }
      { «to» := .one "r@x.com", subject := "s" }
      (fun _ _ => .error .other)).2.1 _ .other rfl rfl,
   by decide⟩

/-- C9: `verifyEmailConfig` returns `true` exactly when the environment
profile resolves and the handshake verification succeeds, and returns
`false` (rather than throwing) when the credentials are missing. -/
theorem claim9_verify_swallows_errors (env : Env)
    (verify : EmailConfig → Except JsThrown Unit) :
    (verifyEmailConfig env verify = true ↔
      ∃ c, createTransporter env none = .ok c ∧ verify c = .ok ()) ∧
    ((truthyStr env.EMAIL_USER = false ∨ truthyStr env.EMAIL_PASSWORD = false) →
      verifyEmailConfig env verify = false) := by
  constructor
  · constructor
    · intro h
      unfold verifyEmailConfig at h
      split at h
      · exact absurd h (by decide)
      · rename_i c heq
        split at h
        · rename_i u hv
          exact ⟨c, heq, by cases u; exact hv⟩
        · exact absurd h (by decide)
    · rintro ⟨c, hc, hv⟩
      simp [verifyEmailConfig, hc, hv]
  · intro hcred
    have he : createTransporter env none =
        .error "Email configuration is missing. Please set EMAIL_USER and EMAIL_PASSWORD in .env" := by
      simp only [createTransporter]
      rw [if_pos hcred]
    simp [verifyEmailConfig, he]

/-- C9 witness: with no credentials in the environment the probe reports
`false`. -/
theorem claim9_witness :
    verifyEmailConfig {} (fun _ => Except.ok ()) = false :=
  (claim9_verify_swallows_errors {} (fun _ => Except.ok ())).2 (Or.inl (by decide))

/-- C10: every error escaping `sendEmail`, configuration failures included,
carries the uniform prefix `Failed to send email: `, so only the embedded
message text distinguishes error kinds at the boundary. -/
theorem claim10_uniform_prefix (env : Env) (opts : SendEmailOptions)
    (sendMail : EmailConfig → MailOptions → Except JsThrown Unit) (e : String)
    (h : sendEmail env opts sendMail = .error e) :
    ∃ rest, e = "Failed to send email: " ++ rest := by
  unfold sendEmail at h
  split at h
  · injection h with h2
    exact ⟨_, h2.symm⟩
  · split at h
    · cases h
    · injection h with h2
      exact ⟨_, h2.symm⟩

/-- C10 witness: a configuration failure (empty environment, no integration
config) escapes with the uniform prefix. -/
theorem claim10_witness :
    ∃ rest,
      "Failed to send email: Email configuration is missing. Please set EMAIL_USER and EMAIL_PASSWORD in .env" =
        "Failed to send email: " ++ rest :=
  claim10_uniform_prefix {} { «to» := .one "r@x.com", subject := "s" }
    (fun _ _ => .ok ()) _ rfl

end EmailTs
